import Mathlib

/-!
Verification of the scoring, normalization and integration engine of
`src/core/analysis_engine.py` (class `AnalysisEngine`).

The Python functions are shallowly embedded as Lean definitions: Python
floats become `ℚ` (every arithmetic identity checked here is
expression-for-expression the same computation on both sides, so exactness
transfers), Python strings become `List Char`, Python `dict`s of scores
become association lists or structures with one field per key, and
fallible code returns `Except`/`Option`.
-/

namespace AnalysisEngine

/-- Embedding of `AnalysisEngine._scale_to_100` (analysis_engine.py lines
182-189) for numeric inputs: values in [0,10] are treated as a 0-10 scale
and multiplied by 10, values above 100 are clamped to 100, anything else
passes through unchanged. -/
def scale_to_100 (value : ℚ) : ℚ :=
  if 0 ≤ value ∧ value ≤ 10 then value * 10
  else if value > 100 then 100
  else value

/-- Embedding of `AnalysisEngine._calculate_title_score` (lines 400-406):
bucketed score of the title length, 0 for an empty title. -/
def calculate_title_score (title : List Char) : ℚ :=
  if title = [] then 0
  else
    let l := title.length
    if 30 ≤ l ∧ l ≤ 60 then 10
    else if (20 ≤ l ∧ l < 30) ∨ (60 < l ∧ l ≤ 70) then 8
    else if (10 ≤ l ∧ l < 20) ∨ (70 < l ∧ l ≤ 80) then 6
    else if l < 10 then 3 else 4

/-- Embedding of `AnalysisEngine._calculate_meta_description_score`
(lines 408-414). -/
def calculate_meta_description_score (desc : List Char) : ℚ :=
  if desc = [] then 0
  else
    let l := desc.length
    if 120 ≤ l ∧ l ≤ 156 then 10
    else if (100 ≤ l ∧ l < 120) ∨ (156 < l ∧ l ≤ 170) then 8
    else if (80 ≤ l ∧ l < 100) ∨ (170 < l ∧ l ≤ 200) then 6
    else if l < 80 then 3 else 4

/-- Embedding of `AnalysisEngine._calculate_headings_score` (lines
416-421); the argument `hi` is the count of `<hi>` headings. -/
def calculate_headings_score (h1 h2 h3 h4 h5 h6 : ℕ) : ℚ :=
  let h1_sc : ℚ := if h1 = 1 then 10 else if h1 > 1 then 5 else 0
  let h2_sc : ℚ := if h2 ≥ 1 then 10 else 0
  let hier_sc : ℚ :=
    if h1 > 0 ∧ h2 = 0 ∧ (h3 > 0 ∨ h4 > 0 ∨ h5 > 0 ∨ h6 > 0) then 5 else 10
  h1_sc * 0.4 + h2_sc * 0.3 + hier_sc * 0.3

/-- Embedding of `AnalysisEngine._calculate_content_score` (lines
423-426): word-count bucket weighted 0.7 plus text/markup-ratio bucket
weighted 0.3. -/
def calculate_content_score (wc : ℕ) (tr : ℚ) : ℚ :=
  let w_sc : ℚ :=
    if wc ≥ 600 then 10 else if wc ≥ 400 then 8
    else if wc ≥ 300 then 6 else if wc ≥ 200 then 4 else 2
  let r_sc : ℚ :=
    if tr ≥ 25 then 10 else if tr ≥ 20 then 8
    else if tr ≥ 15 then 6 else if tr ≥ 10 then 4 else 2
  w_sc * 0.7 + r_sc * 0.3

/-- Embedding of `AnalysisEngine._calculate_links_score` (lines 428-431). -/
def calculate_links_score (int_l ext_l : ℕ) : ℚ :=
  let int_sc : ℚ :=
    if int_l ≥ 5 then 10 else if int_l ≥ 3 then 8 else if int_l ≥ 1 then 5 else 0
  let ext_sc : ℚ := if ext_l ≥ 3 then 10 else if ext_l ≥ 1 then 8 else 5
  int_sc * 0.7 + ext_sc * 0.3

/-- Embedding of `AnalysisEngine._calculate_images_score` (lines 433-441):
alt-text coverage ratio buckets, with 5 when there are no images at all. -/
def calculate_images_score (img_alt img_no_alt : ℕ) : ℚ :=
  let total := img_alt + img_no_alt
  if total = 0 then 5
  else
    let ratio : ℚ := (img_alt : ℚ) / (total : ℚ)
    if ratio = 1 then 10
    else if ratio ≥ 0.8 then 8
    else if ratio ≥ 0.6 then 6
    else if ratio ≥ 0.4 then 4
    else if ratio ≥ 0.2 then 2 else 0

/-- Embedding of `AnalysisEngine._calculate_technical_score` (lines
443-445): mean of three checks (structured data 10/0, viewport 10/0,
canonical URL 10/5 where truthiness of the URL string is non-emptiness). -/
def calculate_technical_score (struct_data viewport : Bool) (canon_url : List Char) : ℚ :=
  ((if struct_data then 10 else 0) + (if viewport then 10 else 0)
    + (if canon_url ≠ [] then (10 : ℚ) else 5)) / 3

/-- The seven-entry `scores` dict built by `AnalysisEngine._analyze_seo`
(lines 379-387), one field per key in the order the code inserts them. -/
structure SeoScores where
  title_score : ℚ
  meta_description_score : ℚ
  headings_score : ℚ
  content_score : ℚ
  links_score : ℚ
  images_score : ℚ
  technical_score : ℚ

/-- Construction of the `scores` dict in `_analyze_seo` (lines 379-387)
from the already-extracted page signals. -/
def mkSeoScores (title desc : List Char) (h1 h2 h3 h4 h5 h6 : ℕ)
    (wc : ℕ) (tr : ℚ) (int_l ext_l : ℕ) (img_alt img_no_alt : ℕ)
    (struct_data viewport : Bool) (canon_url : List Char) : SeoScores where
  title_score := calculate_title_score title
  meta_description_score := calculate_meta_description_score desc
  headings_score := calculate_headings_score h1 h2 h3 h4 h5 h6
  content_score := calculate_content_score wc tr
  links_score := calculate_links_score int_l ext_l
  images_score := calculate_images_score img_alt img_no_alt
  technical_score := calculate_technical_score struct_data viewport canon_url

/-- `sum(scores.values())` over the seven sub-scores. -/
def seoSubSum (s : SeoScores) : ℚ :=
  s.title_score + s.meta_description_score + s.headings_score
    + s.content_score + s.links_score + s.images_score + s.technical_score

/-- `total_score = sum(scores.values()) / len(scores) * 10` from
`_analyze_seo` line 388 (the dict always has seven entries). -/
def seoTotalScore (s : SeoScores) : ℚ :=
  seoSubSum s / 7 * 10

/-- The SEO recomputation of `AnalysisEngine._validate_score_consistency`
(line 662): `(sum(seo_scores.values()) / max(len(seo_scores), 1)) * 10.0`
with the seven stored sub-scores. -/
def seoTotalExpected (s : SeoScores) : ℚ :=
  (seoSubSum s / 7) * 10

/-- `seo_delta = reported - expected` from `_validate_score_consistency`
(line 665), where `reported` is the stored `total_score`. -/
def seoDelta (s : SeoScores) (reported : ℚ) : ℚ :=
  reported - seoTotalExpected s

/-- Python's built-in `round` to an integer on exact rationals:
round-half-to-even (banker's rounding), as used at
`_integrate_results` line 635. -/
def pyRound (q : ℚ) : ℤ :=
  let f := ⌊q⌋
  let r := q - f
  if r < 1/2 then f
  else if 1/2 < r then f + 1
  else if f % 2 = 0 then f else f + 1

/-- The fields of the dict returned by `AnalysisEngine._integrate_results`
(lines 637-646) that carry the numeric integration results.  The
free-text `improvements` list is presentation-layer rendering of the same
scores and is not modelled. -/
structure IntegratedResult where
  integrated_score : ℚ
  seo_score : ℚ
  aio_score : ℚ
  primary_focus : List Char
  recommended_seo_focus : ℤ
  recommended_aio_focus : ℤ

/-- Embedding of the numeric core of `AnalysisEngine._integrate_results`
(lines 606-646): re-apply `_scale_to_100` to the AIO total, blend with
the given weights, and compute the recommended rebalance from the two
gaps to 100 (50 when the total gap is zero, and also 50 on the
defensive non-positive-gap branch of line 635). -/
def integrate_results (seo_total aio_total : ℚ) (seo_weight aio_weight : ℚ) :
    IntegratedResult :=
  let seo_score := seo_total
  let aio_total_score := scale_to_100 aio_total
  let integrated_score := seo_score * seo_weight + aio_total_score * aio_weight
  let total_gap := (100 - seo_score) + (100 - aio_total_score)
  let recommended_seo_focus : ℤ :=
    if total_gap = 0 then 50
    else if total_gap > 0 then pyRound ((100 - seo_score) / total_gap * 100)
    else 50
  { integrated_score := integrated_score
    seo_score := seo_score
    aio_score := aio_total_score
    primary_focus :=
      if aio_total_score < seo_score then "AIO".toList else "SEO".toList
    recommended_seo_focus := recommended_seo_focus
    recommended_aio_focus := 100 - recommended_seo_focus }

/-- The integration step of `AnalysisEngine.analyze_url` (lines 219-222):
`seo_weight = (100 - balance) / 100`, `aio_weight = balance / 100`, then
`_integrate_results`. -/
def analyze_url_integration (seo_total aio_total balance : ℚ) : IntegratedResult :=
  integrate_results seo_total aio_total ((100 - balance) / 100) (balance / 100)

/-! ### Industry resolution (`_determine_final_industry`, lines 237-263) -/

/-- The relevant fields of `IndustryAnalysis` consumed by
`_determine_final_industry`: auto-detected primary label, confidence and
secondary industries. -/
structure IndustryAnalysis where
  primary_industry : List Char
  confidence_score : ℚ
  secondary_industries : List (List Char)

/-- The result dict built by `_determine_final_industry` (lines 238-245). -/
structure FinalIndustry where
  primary : List Char
  source : List Char
  confidence : ℚ
  secondary_detected : List (List Char)
  auto_primary : List Char
  auto_confidence : ℚ

/-- Python `str.lower` restricted to the character-wise case mapping. -/
def pyLower (s : List Char) : List Char := s.map Char.toLower

/-- Python's substring containment `needle in haystack`. -/
def isSubstring (needle : List Char) : List Char → Bool
  | [] => needle.isEmpty
  | c :: rest => needle.isPrefixOf (c :: rest) || isSubstring needle rest

/-- Python's `f"{x:.1f}"` on an exact rational: one decimal place,
round-half-to-even. -/
def fmt1 (q : ℚ) : List Char :=
  let n := pyRound (q * 10)
  let m := n.natAbs
  let core := (toString (m / 10)).toList ++ '.' :: (toString (m % 10)).toList
  if n < 0 then '-' :: core else core

/-- Embedding of `AnalysisEngine._determine_final_industry` (lines
237-263).  Python truthiness of `user_industry` is non-emptiness; the
user-industry branch gate is `auto.confidence_score > 50` (line 246) and
the substring test is case-insensitive containment (line 247). -/
def determine_final_industry (user_industry : List Char) (auto : IndustryAnalysis) :
    FinalIndustry :=
  let base : FinalIndustry :=
    { primary := if user_industry ≠ [] then user_industry else auto.primary_industry
      source := []
      confidence := 0
      secondary_detected := auto.secondary_industries
      auto_primary := auto.primary_industry
      auto_confidence := auto.confidence_score }
  if user_industry ≠ [] ∧ auto.confidence_score > 50 then
    if isSubstring (pyLower user_industry) (pyLower auto.primary_industry) then
      { base with source := "ユーザー入力（自動判定で確認済み）".toList, confidence := 95 }
    else
      { base with
          source := "ユーザー入力（自動判定: ".toList ++ auto.primary_industry ++ "）".toList
          confidence := 85 }
  else if user_industry ≠ [] then
    { base with source := "ユーザー入力".toList, confidence := 80 }
  else if auto.confidence_score > 70 then
    { base with
        source := "自動判定（信頼度: ".toList ++ fmt1 auto.confidence_score ++ "%）".toList
        confidence := auto.confidence_score }
  else
    { base with
        primary := "指定なし".toList
        source := "判定困難".toList
        confidence := auto.confidence_score }

/-! ### Content extraction (`_extract_main_content`, lines 265-284)

The DOM side (selector matching, boilerplate removal, `get_text`) is the
markup-provider collaborator; its output is modelled as the list of
matched region texts in selector-priority order, plus the optional body
text and the whole-document text used by the fallbacks. -/

/-- `" ".join(parts)`. -/
def joinSpace (parts : List (List Char)) : List Char := List.intercalate [' '] parts

/-- The accumulation loop of `_extract_main_content` (lines 270-280): a
region text is appended only when strictly longer than 200 characters,
and the loop returns immediately once the joined accumulator exceeds
5000 characters — checked after appending. -/
def extract_loop (acc : List (List Char)) : List (List Char) → List (List Char)
  | [] => acc
  | text :: rest =>
    if 200 < text.length then
      let acc2 := acc ++ [text]
      if 5000 < (joinSpace acc2).length then acc2
      else extract_loop acc2 rest
    else extract_loop acc rest

/-- Embedding of `AnalysisEngine._extract_main_content` (lines 265-284):
run the accumulation loop over the matched regions; if nothing was
collected fall back to the body text, then to the whole-document text. -/
def extract_main_content (regions : List (List Char)) (body : Option (List Char))
    (docText : List Char) : List Char :=
  let content_parts := extract_loop [] regions
  if content_parts ≠ [] then joinSpace content_parts
  else
    match body with
    | some b => b
    | none => docText

/-! ### AIO response normalization (`_analyze_aio`, lines 572-604)

The LLM call itself is the external collaborator; its raw text reply is
the input here.  JSON parsing (`json.loads`) is library code and is kept
abstract as a `parse` function argument returning `Option`. -/

/-- Python `str.strip()` whitespace predicate (ASCII whitespace). -/
def pyIsSpace (c : Char) : Bool :=
  c = ' ' || c = '\t' || c = '\n' || c = '\r' || c = '\x0b' || c = '\x0c'

/-- Python `str.strip()`: drop leading and trailing whitespace. -/
def pyStrip (s : List Char) : List Char :=
  ((s.dropWhile pyIsSpace).reverse.dropWhile pyIsSpace).reverse

/-- Scanner for `removeAll`, structurally recursive on a fuel argument so
that it evaluates by kernel reduction; the fuel is always at least the
length of the list, and every step shortens the list, so the fuel is
never exhausted. -/
def removeAllAux (pat : List Char) : ℕ → List Char → List Char
  | _, [] => []
  | 0, s => s
  | fuel + 1, c :: rest =>
    if pat ≠ [] ∧ pat.isPrefixOf (c :: rest) then
      removeAllAux pat fuel (rest.drop (pat.length - 1))
    else
      c :: removeAllAux pat fuel rest

/-- Python `s.replace(pat, "")`: remove every non-overlapping occurrence
of `pat`, scanning left to right. -/
def removeAll (pat : List Char) (s : List Char) : List Char :=
  removeAllAux pat s.length s

/-- Python `s.find(c)` for a single character: index of the first
occurrence, `none` standing for `-1`. -/
def pyFind (c : Char) (s : List Char) : Option ℕ := s.findIdx? (· == c)

/-- Python `s.rfind(c)` for a single character: index of the last
occurrence, `none` standing for `-1`. -/
def pyRfind (c : Char) (s : List Char) : Option ℕ :=
  match s.reverse.findIdx? (· == c) with
  | some i => some (s.length - 1 - i)
  | none => none

/-- Python slice `s[a:b]`. -/
def pySlice (s : List Char) (a b : ℕ) : List Char := (s.drop a).take (b - a)

/-- The opening-brace character (`'\x7b'`). -/
def lbrace : Char := Char.ofNat 123

/-- The closing-brace character (`'\x7d'`). -/
def rbrace : Char := Char.ofNat 125

/-- The plain code-fence marker. -/
def fencePat : List Char := (Char.ofNat 96) :: (Char.ofNat 96) :: [Char.ofNat 96]

/-- The JSON code-fence marker. -/
def jsonFencePat : List Char := fencePat ++ "json".toList

/-- The string clean-up of `_analyze_aio` (lines 573-577): strip, then if
the text starts with a JSON fence remove all fence markers (first the
JSON-tagged one, then the bare one) and strip again; likewise for a bare
leading fence. -/
def aioClean (raw : List Char) : List Char :=
  let s := pyStrip raw
  if jsonFencePat.isPrefixOf s then
    pyStrip (removeAll fencePat (removeAll jsonFencePat s))
  else if fencePat.isPrefixOf s then
    pyStrip (removeAll fencePat s)
  else s

/-- The JSON recovery of `_analyze_aio` (lines 573-583): clean the raw
reply, locate the first `'\x7b'` and the last `'\x7d'`, fail when either
is missing or the first is not before the last, otherwise parse the
inclusive slice between them; a parse failure is also an error
(`json.loads` raising). -/
def aioParse {J : Type} (parse : List Char → Option J) (raw : List Char) :
    Except Unit J :=
  let s := aioClean raw
  match pyFind lbrace s, pyRfind rbrace s with
  | some start_idx, some end_idx =>
    if start_idx ≥ end_idx then Except.error ()
    else
      match parse (pySlice s start_idx (end_idx + 1)) with
      | some j => Except.ok j
      | none => Except.error ()
  | some _, none => Except.error ()
  | none, _ => Except.error ()

/-- One `{score, advice}` item of the AIO `scores` map. -/
structure ScoreAdvice where
  score : ℚ
  advice : List Char
deriving DecidableEq

/-- The fallback item `default_score_advice` of `_analyze_aio` line 596:
score 0 with the Japanese "no data from the API" advice text. -/
def default_score_advice : ScoreAdvice := ⟨0, "APIからのデータなし".toList⟩

/-- Modelled from the spec: the sixteen expected AIO score keys.  The
iteration source `AIO_SCORE_MAP_JP.keys()` (line 597) lives in
`core/constants.py`, which is not part of the provided sources; the spec
fixes sixteen named score keys, and the prompt template of
`_analyze_aio` (lines 515-530) lists exactly these sixteen under
`"scores"`. -/
def aioScoreKeys : List (List Char) :=
  ["experience".toList, "expertise".toList, "authoritativeness".toList,
   "trustworthiness".toList, "structure".toList, "qa_compatibility".toList,
   "citation_potential".toList, "multimodal".toList, "search_intent".toList,
   "personalization".toList, "uniqueness".toList, "completeness".toList,
   "readability".toList, "mobile_friendly".toList, "page_speed".toList,
   "metadata".toList]

/-- The score-map repair loop of `_analyze_aio` (lines 596-598): for every
expected key, take the parsed item when present, else the default.  The
parsed `scores` sub-object is an association list (an absent `scores`
object is the empty list). -/
def normalize_aio_scores (parsed : List (List Char × ScoreAdvice)) :
    List (List Char × ScoreAdvice) :=
  aioScoreKeys.map (fun k => (k, (parsed.lookup k).getD default_score_advice))

/-- A raw LLM reply wrapped in a JSON code fence, with prose before the
first `'\x7b'` and after the last `'\x7d'`. -/
def fenceExampleRaw : List Char :=
  jsonFencePat ++ "\nIntro text ".toList ++ lbrace :: "payload".toList
    ++ rbrace :: " trailing\n".toList ++ fencePat

/-- The object slice that `_analyze_aio` recovers from `fenceExampleRaw`. -/
def fenceExampleSlice : List Char := lbrace :: "payload".toList ++ [rbrace]

/-- A raw LLM reply containing no opening brace at all. -/
def noBraceRaw : List Char := "no object here".toList

/-- C3: the scale-to-100 normalization returns value × 10 when the value
is in [0,10], returns 100 when the value is greater than 100, and returns
the value unchanged when it is in (10,100]; in particular 5 ↦ 50,
75 ↦ 75, 150 ↦ 100 and 0 ↦ 0. -/
theorem scale_to_100_spec (v : ℚ) :
    (0 ≤ v → v ≤ 10 → scale_to_100 v = v * 10) ∧
    (100 < v → scale_to_100 v = 100) ∧
    (10 < v → v ≤ 100 → scale_to_100 v = v) ∧
    scale_to_100 5 = 50 ∧ scale_to_100 75 = 75 ∧
    scale_to_100 150 = 100 ∧ scale_to_100 0 = 0 := by
  refine ⟨?_, ?_, ?_, ?_, ?_, ?_, ?_⟩
  · intro h1 h2
    simp only [scale_to_100, if_pos (And.intro h1 h2)]
  · intro h
    have hn : ¬(0 ≤ v ∧ v ≤ 10) := by
      push_neg
      intro
      linarith
    simp only [scale_to_100, if_neg hn, if_pos h]
  · intro h1 h2
    have hn1 : ¬(0 ≤ v ∧ v ≤ 10) := by
      push_neg
      intro
      linarith
    have hn2 : ¬(v > 100) := by linarith
    simp only [scale_to_100, if_neg hn1, if_neg hn2]
  all_goals norm_num [scale_to_100]

/-- Witness for `scale_to_100_spec` at concrete inputs. -/
theorem scale_to_100_spec_witness :
    scale_to_100 5 = 5 * 10 ∧ scale_to_100 150 = 100 ∧ scale_to_100 75 = 75 :=
  ⟨(scale_to_100_spec 5).1 (by norm_num) (by norm_num),
   (scale_to_100_spec 150).2.1 (by norm_num),
   (scale_to_100_spec 75).2.2.1 (by norm_num) (by norm_num)⟩

/-- C8: title sub-score buckets: 0 for empty, 10 for length 30-60, 8 for
20-29 or 61-70, 6 for 10-19 or 71-80, 3 below 10 (non-empty), 4 above
80; lengths 45/25/5/90 score 10/8/3/4. -/
theorem calculate_title_score_spec (title : List Char) :
    (title = [] → calculate_title_score title = 0) ∧
    (30 ≤ title.length → title.length ≤ 60 → calculate_title_score title = 10) ∧
    ((20 ≤ title.length ∧ title.length ≤ 29) ∨ (61 ≤ title.length ∧ title.length ≤ 70) →
      calculate_title_score title = 8) ∧
    ((10 ≤ title.length ∧ title.length ≤ 19) ∨ (71 ≤ title.length ∧ title.length ≤ 80) →
      calculate_title_score title = 6) ∧
    (title ≠ [] → title.length < 10 → calculate_title_score title = 3) ∧
    (80 < title.length → calculate_title_score title = 4) ∧
    calculate_title_score (List.replicate 45 'a') = 10 ∧
    calculate_title_score (List.replicate 25 'a') = 8 ∧
    calculate_title_score (List.replicate 5 'a') = 3 ∧
    calculate_title_score (List.replicate 90 'a') = 4 := by
  have hlen : ∀ n : ℕ, (List.replicate n 'a').length = n := fun n => List.length_replicate n 'a'
  have hemp : ∀ l : List Char, 1 ≤ l.length → l ≠ [] := by
    intro l h he
    subst he
    simp at h
  refine ⟨?_, ?_, ?_, ?_, ?_, ?_, ?_, ?_, ?_, ?_⟩
  · intro h
    simp [calculate_title_score, h]
  · intro h1 h2
    have hne := hemp title (by omega)
    simp only [calculate_title_score, if_neg hne]
    split_ifs <;> first | rfl | omega
  · intro h
    have hne := hemp title (by omega)
    simp only [calculate_title_score, if_neg hne]
    split_ifs <;> first | rfl | omega
  · intro h
    have hne := hemp title (by omega)
    simp only [calculate_title_score, if_neg hne]
    split_ifs <;> first | rfl | omega
  · intro hne h
    simp only [calculate_title_score, if_neg hne]
    split_ifs <;> first | rfl | omega
  · intro h
    have hne := hemp title (by omega)
    simp only [calculate_title_score, if_neg hne]
    split_ifs <;> first | rfl | omega
  all_goals
    simp only [calculate_title_score]
    norm_num [hlen]

/-- Witness for `calculate_title_score_spec` at concrete titles. -/
theorem calculate_title_score_spec_witness :
    calculate_title_score (List.replicate 45 'a') = 10 ∧
    calculate_title_score (List.replicate 25 'a') = 8 ∧
    calculate_title_score (List.replicate 5 'a') = 3 ∧
    calculate_title_score (List.replicate 90 'a') = 4 :=
  ⟨(calculate_title_score_spec (List.replicate 45 'a')).2.1
      (by simp) (by simp),
   (calculate_title_score_spec (List.replicate 25 'a')).2.2.1
      (Or.inl (by simp)),
   (calculate_title_score_spec (List.replicate 5 'a')).2.2.2.2.1
      (by simp) (by simp),
   (calculate_title_score_spec (List.replicate 90 'a')).2.2.2.2.2.1
      (by simp)⟩

lemma calculate_title_score_range (t : List Char) :
    0 ≤ calculate_title_score t ∧ calculate_title_score t ≤ 10 := by
  simp only [calculate_title_score]
  split_ifs <;> norm_num

lemma calculate_meta_description_score_range (d : List Char) :
    0 ≤ calculate_meta_description_score d ∧ calculate_meta_description_score d ≤ 10 := by
  simp only [calculate_meta_description_score]
  split_ifs <;> norm_num

lemma calculate_headings_score_range (h1 h2 h3 h4 h5 h6 : ℕ) :
    0 ≤ calculate_headings_score h1 h2 h3 h4 h5 h6 ∧
      calculate_headings_score h1 h2 h3 h4 h5 h6 ≤ 10 := by
  simp only [calculate_headings_score]
  split_ifs <;> norm_num

lemma calculate_content_score_range (wc : ℕ) (tr : ℚ) :
    0 ≤ calculate_content_score wc tr ∧ calculate_content_score wc tr ≤ 10 := by
  simp only [calculate_content_score]
  split_ifs <;> norm_num

lemma calculate_links_score_range (i e : ℕ) :
    0 ≤ calculate_links_score i e ∧ calculate_links_score i e ≤ 10 := by
  simp only [calculate_links_score]
  split_ifs <;> norm_num

lemma calculate_images_score_range (a n : ℕ) :
    0 ≤ calculate_images_score a n ∧ calculate_images_score a n ≤ 10 := by
  simp only [calculate_images_score]
  split_ifs <;> norm_num

lemma calculate_technical_score_range (sd vp : Bool) (cu : List Char) :
    0 ≤ calculate_technical_score sd vp cu ∧ calculate_technical_score sd vp cu ≤ 10 := by
  simp only [calculate_technical_score]
  split_ifs <;> norm_num

/-- C2: every `SeoScoreSet` produced by the SEO scorer has all seven
sub-scores in [0,10], its stored aggregate is exactly
mean(sub-scores) × 10, and the consistency validator's recomputed SEO
delta on it is exactly 0. -/
theorem seo_scoreset_consistency (title desc : List Char) (h1 h2 h3 h4 h5 h6 : ℕ)
    (wc : ℕ) (tr : ℚ) (int_l ext_l : ℕ) (img_alt img_no_alt : ℕ)
    (struct_data viewport : Bool) (canon_url : List Char) :
    (0 ≤ (mkSeoScores title desc h1 h2 h3 h4 h5 h6 wc tr int_l ext_l img_alt
        img_no_alt struct_data viewport canon_url).title_score ∧
      (mkSeoScores title desc h1 h2 h3 h4 h5 h6 wc tr int_l ext_l img_alt
        img_no_alt struct_data viewport canon_url).title_score ≤ 10) ∧
    (0 ≤ (mkSeoScores title desc h1 h2 h3 h4 h5 h6 wc tr int_l ext_l img_alt
        img_no_alt struct_data viewport canon_url).meta_description_score ∧
      (mkSeoScores title desc h1 h2 h3 h4 h5 h6 wc tr int_l ext_l img_alt
        img_no_alt struct_data viewport canon_url).meta_description_score ≤ 10) ∧
    (0 ≤ (mkSeoScores title desc h1 h2 h3 h4 h5 h6 wc tr int_l ext_l img_alt
        img_no_alt struct_data viewport canon_url).headings_score ∧
      (mkSeoScores title desc h1 h2 h3 h4 h5 h6 wc tr int_l ext_l img_alt
        img_no_alt struct_data viewport canon_url).headings_score ≤ 10) ∧
    (0 ≤ (mkSeoScores title desc h1 h2 h3 h4 h5 h6 wc tr int_l ext_l img_alt
        img_no_alt struct_data viewport canon_url).content_score ∧
      (mkSeoScores title desc h1 h2 h3 h4 h5 h6 wc tr int_l ext_l img_alt
        img_no_alt struct_data viewport canon_url).content_score ≤ 10) ∧
    (0 ≤ (mkSeoScores title desc h1 h2 h3 h4 h5 h6 wc tr int_l ext_l img_alt
        img_no_alt struct_data viewport canon_url).links_score ∧
      (mkSeoScores title desc h1 h2 h3 h4 h5 h6 wc tr int_l ext_l img_alt
        img_no_alt struct_data viewport canon_url).links_score ≤ 10) ∧
    (0 ≤ (mkSeoScores title desc h1 h2 h3 h4 h5 h6 wc tr int_l ext_l img_alt
        img_no_alt struct_data viewport canon_url).images_score ∧
      (mkSeoScores title desc h1 h2 h3 h4 h5 h6 wc tr int_l ext_l img_alt
        img_no_alt struct_data viewport canon_url).images_score ≤ 10) ∧
    (0 ≤ (mkSeoScores title desc h1 h2 h3 h4 h5 h6 wc tr int_l ext_l img_alt
        img_no_alt struct_data viewport canon_url).technical_score ∧
      (mkSeoScores title desc h1 h2 h3 h4 h5 h6 wc tr int_l ext_l img_alt
        img_no_alt struct_data viewport canon_url).technical_score ≤ 10) ∧
    seoTotalScore (mkSeoScores title desc h1 h2 h3 h4 h5 h6 wc tr int_l ext_l
        img_alt img_no_alt struct_data viewport canon_url)
      = seoSubSum (mkSeoScores title desc h1 h2 h3 h4 h5 h6 wc tr int_l ext_l
          img_alt img_no_alt struct_data viewport canon_url) / 7 * 10 ∧
    seoDelta (mkSeoScores title desc h1 h2 h3 h4 h5 h6 wc tr int_l ext_l
        img_alt img_no_alt struct_data viewport canon_url)
      (seoTotalScore (mkSeoScores title desc h1 h2 h3 h4 h5 h6 wc tr int_l ext_l
        img_alt img_no_alt struct_data viewport canon_url)) = 0 := by
  refine ⟨?_, ?_, ?_, ?_, ?_, ?_, ?_, rfl, ?_⟩
  · exact calculate_title_score_range title
  · exact calculate_meta_description_score_range desc
  · exact calculate_headings_score_range h1 h2 h3 h4 h5 h6
  · exact calculate_content_score_range wc tr
  · exact calculate_links_score_range int_l ext_l
  · exact calculate_images_score_range img_alt img_no_alt
  · exact calculate_technical_score_range struct_data viewport canon_url
  · simp only [seoDelta, seoTotalScore, seoTotalExpected]
    ring

/-- C6: with the weights derived from `balance`, the integrated score is
`seo_total × (100−balance)/100 + aio_total × balance/100` whenever the
AIO total is already on the 0-100 scale (re-normalizing it is the
identity); in particular balance 0 returns the SEO total and balance 100
the AIO total. -/
theorem integrated_score_blend (seo aio balance : ℚ)
    (hfix : scale_to_100 aio = aio) :
    (analyze_url_integration seo aio balance).integrated_score
        = seo * ((100 - balance) / 100) + aio * (balance / 100) ∧
    (analyze_url_integration seo aio 0).integrated_score = seo ∧
    (analyze_url_integration seo aio 100).integrated_score = aio := by
  refine ⟨?_, ?_, ?_⟩ <;>
    simp only [analyze_url_integration, integrate_results, hfix] <;> ring

/-- Witness for `integrated_score_blend` at concrete totals. -/
theorem integrated_score_blend_witness :
    (analyze_url_integration 60 80 30).integrated_score
        = 60 * ((100 - 30) / 100) + 80 * (30 / 100) ∧
    (analyze_url_integration 60 80 0).integrated_score = 60 ∧
    (analyze_url_integration 60 80 100).integrated_score = 80 :=
  integrated_score_blend 60 80 30 (by norm_num [scale_to_100])

/-- C7: the recommended rebalance always sums to 100; when both side
totals are 100 it is exactly 50/50; otherwise (totals in [0,100], AIO
total already scaled) the SEO focus is
`round((100−seo)/((100−seo)+(100−aio)) × 100)`. -/
theorem recommended_rebalance_spec (seo aio balance : ℚ) :
    (analyze_url_integration seo aio balance).recommended_seo_focus
        + (analyze_url_integration seo aio balance).recommended_aio_focus = 100 ∧
    (seo = 100 → aio = 100 →
      (analyze_url_integration seo aio balance).recommended_seo_focus = 50 ∧
      (analyze_url_integration seo aio balance).recommended_aio_focus = 50) ∧
    (scale_to_100 aio = aio → 0 ≤ seo → seo ≤ 100 → 0 ≤ aio → aio ≤ 100 →
      ¬(seo = 100 ∧ aio = 100) →
      (analyze_url_integration seo aio balance).recommended_seo_focus
        = pyRound ((100 - seo) / ((100 - seo) + (100 - aio)) * 100)) := by
  refine ⟨?_, ?_, ?_⟩
  · simp only [analyze_url_integration, integrate_results]
    ring
  · intro hs ha
    subst hs
    subst ha
    norm_num [analyze_url_integration, integrate_results, scale_to_100]
  · intro hfix h0s h1s h0a h1a hne
    simp only [analyze_url_integration, integrate_results, hfix]
    have hgt : (0 : ℚ) < (100 - seo) + (100 - aio) := by
      rcases eq_or_lt_of_le (by linarith : (0 : ℚ) ≤ (100 - seo) + (100 - aio)) with h | h
      · exfalso
        exact hne ⟨by linarith, by linarith⟩
      · exact h
    rw [if_neg (ne_of_gt hgt), if_pos hgt]

/-- Witness for `recommended_rebalance_spec` at concrete totals. -/
theorem recommended_rebalance_spec_witness :
    (analyze_url_integration 50 80 50).recommended_seo_focus
        + (analyze_url_integration 50 80 50).recommended_aio_focus = 100 ∧
    (analyze_url_integration 100 100 50).recommended_seo_focus = 50 ∧
    (analyze_url_integration 50 80 50).recommended_seo_focus
        = pyRound ((100 - 50) / ((100 - 50) + (100 - 80)) * 100) :=
  ⟨(recommended_rebalance_spec 50 80 50).1,
   ((recommended_rebalance_spec 100 100 50).2.1 rfl rfl).1,
   (recommended_rebalance_spec 50 80 50).2.2 (by norm_num [scale_to_100])
     (by norm_num) (by norm_num) (by norm_num) (by norm_num) (by norm_num)⟩

/-- C1 counterexample: user industry "fashion" with auto verdict
("Finance", confidence 60).  The claim (threshold 70) demands confidence
80 here since 60 ≤ 70, but the resolver's user branch is gated at
confidence > 50 (line 246) and returns the user-overriding-auto
confidence 85. -/
theorem determine_final_industry_counterexample :
    (determine_final_industry "fashion".toList
        ⟨"Finance".toList, 60, []⟩).confidence = 85 ∧
    ¬ (determine_final_industry "fashion".toList
        ⟨"Finance".toList, 60, []⟩).confidence = 80 := by
  constructor <;> decide

/-- C1 (amended): for a non-empty user industry the resolver decides at
threshold 50: auto confidence > 50 with a case-insensitive substring
match gives confidence 95, > 50 without a match gives 85, and ≤ 50
accepts the user label at confidence 80. -/
theorem determine_final_industry_amended (user : List Char) (auto : IndustryAnalysis)
    (hu : user ≠ []) :
    (50 < auto.confidence_score →
      (isSubstring (pyLower user) (pyLower auto.primary_industry) = true →
        (determine_final_industry user auto).confidence = 95) ∧
      (isSubstring (pyLower user) (pyLower auto.primary_industry) = false →
        (determine_final_industry user auto).confidence = 85)) ∧
    (auto.confidence_score ≤ 50 →
      (determine_final_industry user auto).confidence = 80) := by
  refine ⟨fun hc => ⟨fun hsub => ?_, fun hsub => ?_⟩, fun hc => ?_⟩
  · simp only [determine_final_industry,
      if_pos (show user ≠ [] ∧ auto.confidence_score > 50 from ⟨hu, hc⟩), hsub]
    simp
  · simp only [determine_final_industry,
      if_pos (show user ≠ [] ∧ auto.confidence_score > 50 from ⟨hu, hc⟩), hsub]
    simp
  · have hn : ¬(user ≠ [] ∧ auto.confidence_score > 50) := by
      rintro ⟨-, h⟩
      exact absurd h (not_lt.mpr hc)
    simp only [determine_final_industry, if_neg hn, if_pos hu]

/-- Witness for `determine_final_industry_amended` on the spec's own
examples plus an at-or-below-threshold case. -/
theorem determine_final_industry_amended_witness :
    (determine_final_industry "fashion".toList
        ⟨"Fashion Retail".toList, 80, []⟩).confidence = 95 ∧
    (determine_final_industry "fashion".toList
        ⟨"Finance".toList, 80, []⟩).confidence = 85 ∧
    (determine_final_industry "fashion".toList
        ⟨"Finance".toList, 40, []⟩).confidence = 80 :=
  ⟨((determine_final_industry_amended "fashion".toList
        ⟨"Fashion Retail".toList, 80, []⟩ (by decide)).1 (by norm_num)).1 (by decide),
   ((determine_final_industry_amended "fashion".toList
        ⟨"Finance".toList, 80, []⟩ (by decide)).1 (by norm_num)).2 (by decide),
   (determine_final_industry_amended "fashion".toList
        ⟨"Finance".toList, 40, []⟩ (by decide)).2 (by norm_num)⟩

lemma lookup_map_over_keys (f : List Char → ScoreAdvice) :
    ∀ (keys : List (List Char)) (k : List Char), k ∈ keys →
      (keys.map (fun k' => (k', f k'))).lookup k = some (f k) := by
  intro keys
  induction keys with
  | nil =>
    intro k h
    simp at h
  | cons k0 rest ih =>
    intro k hk
    by_cases h : k = k0
    · subst h
      simp [List.lookup]
    · have hb : (k == k0) = false := beq_eq_false_iff_ne.mpr h
      simp only [List.map, List.lookup, hb]
      apply ih
      rcases List.mem_cons.mp hk with h' | h'
      · exact absurd h' h
      · exact h'

/-- C5: the normalized AIO score map has exactly the sixteen expected
keys, in order, and each key maps to the parsed item when the LLM object
has it and to the `{score 0, no-data advice}` default when it is absent. -/
theorem normalize_aio_scores_spec (parsed : List (List Char × ScoreAdvice)) :
    (normalize_aio_scores parsed).map Prod.fst = aioScoreKeys ∧
    (∀ k, k ∈ aioScoreKeys →
      (normalize_aio_scores parsed).lookup k
        = some ((parsed.lookup k).getD default_score_advice)) ∧
    (∀ k, k ∈ aioScoreKeys → parsed.lookup k = none →
      (normalize_aio_scores parsed).lookup k = some default_score_advice) := by
  refine ⟨?_, ?_, ?_⟩
  · rw [normalize_aio_scores, List.map_map]
    have hcomp : (Prod.fst ∘ fun k : List Char =>
        (k, (parsed.lookup k).getD default_score_advice)) = id := rfl
    rw [hcomp, List.map_id]
  · intro k hk
    exact lookup_map_over_keys _ aioScoreKeys k hk
  · intro k hk hnone
    have h := lookup_map_over_keys
      (fun k' => ((parsed.lookup k').getD default_score_advice)) aioScoreKeys k hk
    rw [normalize_aio_scores, h]
    simp [hnone]

/-- Witness for `normalize_aio_scores_spec`: an empty LLM object is
repaired to the default on the first expected key. -/
theorem normalize_aio_scores_spec_witness :
    (normalize_aio_scores []).lookup "experience".toList = some default_score_advice :=
  (normalize_aio_scores_spec []).2.2 "experience".toList (by decide) rfl

lemma joinSpace_singleton (x : List Char) : joinSpace [x] = x := by
  simp [joinSpace, List.intercalate]

lemma extract_loop_early_stop (acc : List (List Char)) (text : List Char)
    (rest : List (List Char)) (h1 : 200 < text.length)
    (h2 : 5000 < (joinSpace (acc ++ [text])).length) :
    extract_loop acc (text :: rest) = acc ++ [text] := by
  simp only [extract_loop]
  simp [h1, h2]

lemma extract_loop_mem (l : List (List Char)) :
    ∀ (acc : List (List Char)) (t : List Char),
      t ∈ extract_loop acc l → t ∈ acc ∨ 200 < t.length := by
  induction l with
  | nil =>
    intro acc t ht
    exact Or.inl ht
  | cons text rest ih =>
    intro acc t ht
    simp only [extract_loop] at ht
    by_cases h1 : 200 < text.length
    · rw [if_pos h1] at ht
      by_cases h2 : 5000 < (joinSpace (acc ++ [text])).length
      · rw [if_pos h2] at ht
        rcases List.mem_append.mp ht with h | h
        · exact Or.inl h
        · right
          rw [List.mem_singleton.mp h]
          exact h1
      · rw [if_neg h2] at ht
        rcases ih (acc ++ [text]) t ht with h | h
        · rcases List.mem_append.mp h with h' | h'
          · exact Or.inl h'
          · right
            rw [List.mem_singleton.mp h']
            exact h1
        · exact Or.inr h
    · rw [if_neg h1] at ht
      exact ih acc t ht

lemma extract_loop_all_short (l : List (List Char))
    (h : ∀ t ∈ l, t.length ≤ 200) :
    ∀ acc : List (List Char), extract_loop acc l = acc := by
  induction l with
  | nil =>
    intro acc
    rfl
  | cons text rest ih =>
    intro acc
    have hshort : ¬ 200 < text.length :=
      not_lt.mpr (h text (List.mem_cons_self _ _))
    simp only [extract_loop, if_neg hshort]
    exact ih (fun t ht => h t (List.mem_cons_of_mem _ ht)) acc

/-- C9: the content extractor's 5000-character cutoff is a post-append
early stop, not a hard output bound: once a just-appended region pushes
the joined accumulator over 5000 characters the loop returns at once,
dropping all later regions, and a single 6000-character article region is
returned in full (output length 6000 > 5000). -/
theorem extract_content_early_stop :
    (∀ (acc : List (List Char)) (text : List Char) (rest : List (List Char)),
      200 < text.length → 5000 < (joinSpace (acc ++ [text])).length →
      extract_loop acc (text :: rest) = acc ++ [text]) ∧
    extract_main_content [List.replicate 6000 'a'] none []
      = List.replicate 6000 'a' ∧
    5000 < (extract_main_content [List.replicate 6000 'a'] none []).length := by
  have h1 : 200 < (List.replicate 6000 'a').length := by
    rw [List.length_replicate]
    norm_num
  have h2 : 5000 < (joinSpace ([] ++ [List.replicate 6000 'a'])).length := by
    rw [List.nil_append, joinSpace_singleton, List.length_replicate]
    norm_num
  have hloop : extract_loop [] [List.replicate 6000 'a'] = [List.replicate 6000 'a'] := by
    have h := extract_loop_early_stop [] (List.replicate 6000 'a') [] h1 h2
    rwa [List.nil_append] at h
  have hmain : extract_main_content [List.replicate 6000 'a'] none []
      = List.replicate 6000 'a' := by
    simp only [extract_main_content, hloop]
    rw [if_pos (List.cons_ne_nil _ _), joinSpace_singleton]
  refine ⟨extract_loop_early_stop, hmain, ?_⟩
  rw [hmain, List.length_replicate]
  norm_num

/-- Witness for `extract_content_early_stop`: an over-5000 region already
accumulated makes the loop drop the remaining regions. -/
theorem extract_content_early_stop_witness :
    extract_loop [] [List.replicate 5001 'b', List.replicate 300 'c']
      = [List.replicate 5001 'b'] := by
  have h := extract_content_early_stop.1 [] (List.replicate 5001 'b')
    [List.replicate 300 'c']
    (by rw [List.length_replicate]; norm_num)
    (by rw [List.nil_append, joinSpace_singleton, List.length_replicate]; norm_num)
  rwa [List.nil_append] at h

/-- C10: a matched content region contributes to the accumulated parts
only when its text is strictly longer than 200 characters; when every
region is at most 200 characters nothing accumulates and the extractor
falls back to the body text, or to the whole-document text when there is
no body. -/
theorem extract_content_region_filter :
    (∀ (regions : List (List Char)) (t : List Char),
      t ∈ extract_loop [] regions → 200 < t.length) ∧
    (∀ (regions : List (List Char)) (body docText : List Char),
      (∀ t ∈ regions, t.length ≤ 200) →
      extract_main_content regions (some body) docText = body) ∧
    (∀ (regions : List (List Char)) (docText : List Char),
      (∀ t ∈ regions, t.length ≤ 200) →
      extract_main_content regions none docText = docText) := by
  refine ⟨?_, ?_, ?_⟩
  · intro regions t ht
    rcases extract_loop_mem regions [] t ht with h | h
    · simp at h
    · exact h
  · intro regions body docText h
    simp [extract_main_content, extract_loop_all_short regions h]
  · intro regions docText h
    simp [extract_main_content, extract_loop_all_short regions h]

/-- Witness for `extract_content_region_filter`: a lone 201-character
region passes the filter; a lone 200-character region does not and the
fallbacks fire. -/
theorem extract_content_region_filter_witness :
    200 < (List.replicate 201 'c').length ∧
    extract_main_content [List.replicate 200 'a'] (some "bodytext".toList)
      "doctext".toList = "bodytext".toList ∧
    extract_main_content [List.replicate 200 'a'] none
      "doctext".toList = "doctext".toList := by
  have hshort : ∀ t ∈ [List.replicate 200 'a'], t.length ≤ 200 := by
    intro t ht
    rw [List.mem_singleton] at ht
    subst ht
    rw [List.length_replicate]
  refine ⟨?_, ?_, ?_⟩
  · apply extract_content_region_filter.1 [List.replicate 201 'c']
    have hloop : extract_loop [] [List.replicate 201 'c'] = [List.replicate 201 'c'] := by
      simp only [extract_loop, List.nil_append, joinSpace_singleton, List.length_replicate]
      norm_num
    rw [hloop]
    exact List.mem_singleton.mpr rfl
  · exact extract_content_region_filter.2.1 [List.replicate 200 'a'] _ _ hshort
  · exact extract_content_region_filter.2.2 [List.replicate 200 'a'] _ hshort

lemma aioParse_ok {J : Type} (parse : List Char → Option J) (raw : List Char)
    (st en : ℕ) (j : J)
    (hf : pyFind lbrace (aioClean raw) = some st)
    (hr : pyRfind rbrace (aioClean raw) = some en)
    (hlt : st < en)
    (hp : parse (pySlice (aioClean raw) st (en + 1)) = some j) :
    aioParse parse raw = Except.ok j := by
  simp only [aioParse, hf, hr]
  rw [if_neg (not_le.mpr hlt)]
  simp [hp]

/-- C4: the AIO normalizer strips any code fence, slices from the first
`'\x7b'` to the last `'\x7d'` of the cleaned reply and hands the slice to
the JSON parser; it fails exactly when that recovery cannot produce a
parsed object — no opening brace, no closing brace, first opening brace
not before the last closing brace, or the parser rejecting the slice.  A
fenced reply with leading and trailing prose still parses, and a reply
with no opening brace fails. -/
theorem aio_parse_spec :
    (∀ (J : Type) (parse : List Char → Option J) (raw : List Char),
      aioParse parse raw = Except.error () ↔
        ¬∃ st en j, pyFind lbrace (aioClean raw) = some st ∧
          pyRfind rbrace (aioClean raw) = some en ∧ st < en ∧
          parse (pySlice (aioClean raw) st (en + 1)) = some j) ∧
    (∀ (J : Type) (parse : List Char → Option J) (raw : List Char) (st en : ℕ) (j : J),
      pyFind lbrace (aioClean raw) = some st →
      pyRfind rbrace (aioClean raw) = some en → st < en →
      parse (pySlice (aioClean raw) st (en + 1)) = some j →
      aioParse parse raw = Except.ok j) ∧
    (∀ (J : Type) (parse : List Char → Option J) (j : J),
      parse fenceExampleSlice = some j →
      aioParse parse fenceExampleRaw = Except.ok j) ∧
    (∀ (J : Type) (parse : List Char → Option J),
      aioParse parse noBraceRaw = Except.error ()) := by
  have hclean : aioClean fenceExampleRaw = "Intro text ".toList ++ lbrace ::
      "payload".toList ++ rbrace :: " trailing".toList := by
    decide
  have hfind : pyFind lbrace (aioClean fenceExampleRaw) = some 11 := by
    rw [hclean]
    decide
  have hrfind : pyRfind rbrace (aioClean fenceExampleRaw) = some 19 := by
    rw [hclean]
    decide
  have hslice : pySlice (aioClean fenceExampleRaw) 11 (19 + 1) = fenceExampleSlice := by
    rw [hclean]
    decide
  refine ⟨?_, fun J => aioParse_ok, ?_, ?_⟩
  · intro J parse raw
    constructor
    · intro herr hex
      rcases hex with ⟨st, en, j, hf, hr, hlt, hp⟩
      rw [aioParse_ok parse raw st en j hf hr hlt hp] at herr
      cases herr
    · intro hnex
      rcases hfd : pyFind lbrace (aioClean raw) with _ | st
      · simp [aioParse, hfd]
      rcases hrf : pyRfind rbrace (aioClean raw) with _ | en
      · simp [aioParse, hfd, hrf]
      simp only [aioParse, hfd, hrf]
      by_cases hge : st ≥ en
      · rw [if_pos hge]
      · rw [if_neg hge]
        rcases hp : parse (pySlice (aioClean raw) st (en + 1)) with _ | j
        · simp
        · exact absurd ⟨st, en, j, hfd, hrf, not_le.mp hge, hp⟩ hnex
  · intro J parse j hp
    apply aioParse_ok parse fenceExampleRaw 11 19 j hfind hrfind (by norm_num)
    rw [hslice]
    exact hp
  · intro J parse
    have hnone : pyFind lbrace (aioClean noBraceRaw) = none := by decide
    simp [aioParse, hnone]

/-- Witness for `aio_parse_spec`: a concrete parser applied to the fenced
example succeeds, and any parser fails on the brace-free example. -/
theorem aio_parse_spec_witness :
    aioParse (fun s => if s = fenceExampleSlice then some 0 else none)
      fenceExampleRaw = Except.ok 0 ∧
    aioParse (fun _ : List Char => (none : Option ℕ)) noBraceRaw
      = Except.error () :=
  ⟨aio_parse_spec.2.2.1 ℕ _ 0 (by simp),
   aio_parse_spec.2.2.2 ℕ _⟩

end AnalysisEngine
